import Mathlib

/-!
Verification development for the ReefMind telemetry synthesis and diagnostic
assessment engine.

The definitions below are shallow embeddings of the JavaScript source:

* `jitter` / `round2` — the simulator's noise helper
  `(value + (Math.random() - 0.5) * 2 * amount).toFixed(2)`; the RNG sample is
  made an explicit argument `rand`, and `.toFixed(2)` is modelled as rounding
  to the nearest multiple of 1/100.
* `generateReadings` — the Apex simulator's 30-day history generator
  (`for (let d = days; d >= 0; d--) { ... 6 readings per day ... }`), with the
  clock (`Date.now()`) and the RNG stream passed explicitly; `sine` abstracts
  `Math.sin(r * Math.PI / 3)` in the daily pH cycle.
* `PARAM_RANGES` / `PARAM_RANGES_LIB` / `assessParameter` — the two parameter
  range tables and the tier classifier of the AI analysis modules;
  `assessParameterJs` additionally models the JavaScript property access
  `PARAM_RANGES[param]` with the prototype chain, under which inherited
  `Object.prototype` names bypass the falsy-guard and make the classifier
  throw.
* `analyzeRoute` — the control flow of the server's
  `POST /api/tanks/:tankId/analyze` handler, with the external calls
  (Firestore, the LLM) passed in as already-resolved data / functions.
* `simulatorAnalyze`, `postReading`, `SimulatorData` — the Electron simulator
  API's mock analysis response and its in-memory shared state.
-/

namespace ReefMind

/-- One synthetic Trident reading produced by `generateReadings`.
Timestamps are in milliseconds since the epoch (the source stores the
equivalent ISO string). -/
structure Reading where
  timestamp : ℤ
  source : String
  alk : ℚ
  ca : ℚ
  mg : ℚ
  ph : ℚ
  temp : ℚ
  no3 : ℚ
  po4 : ℚ
deriving DecidableEq

/-- Model of `x.toFixed(2)` (then coerced back to a number): round to the
nearest multiple of 1/100. -/
def round2 (q : ℚ) : ℚ := ((round (q * 100) : ℤ) : ℚ) / 100

/-- The simulator's `jitter(value, amount)`, with the `Math.random()`
sample `rand` as an explicit argument:
`+(value + (rand - 0.5) * 2 * amount).toFixed(2)`. -/
def jitter (value amount rand : ℚ) : ℚ :=
  round2 (value + (rand - 0.5) * 2 * amount)

/-- Alkalinity base for day-counter `d`: stable at 8.2, dropping after day 20,
recovering after day 27 (`d` counts days before "now"). -/
def alkBase (d : ℕ) : ℚ :=
  if 20 < d then 8.2
  else if 10 < d then 8.2 - (20 - (d : ℚ)) * 0.08
  else 7.4 + (10 - (d : ℚ)) * 0.06

/-- Calcium base: rises slightly as alk drops, then stabilizes. -/
def caBase (d : ℕ) : ℚ :=
  if 20 < d then 440
  else if 10 < d then 440 + (20 - (d : ℚ)) * 3
  else 470 - (10 - (d : ℚ)) * 2

/-- Nitrate base used in the per-reading object literal. -/
def no3Base (d : ℕ) : ℚ :=
  if 15 < d then 5 else 5 + (15 - (d : ℚ)) * 0.6

/-- Phosphate base used in the per-reading object literal. -/
def po4Base (d : ℕ) : ℚ :=
  if 15 < d then 0.04 else 0.04 + (15 - (d : ℚ)) * 0.005

/-- The reading pushed for day-counter `d` and intra-day slot `r`
(`time = dayTime + r * 4 * 3600000`).  Each `jitter` call consumes the next
`Math.random()` sample: reading number `6 * (days - d) + r` consumes stream
indices `7n .. 7n+6` in object-literal order. -/
def mkReading (days d r : ℕ) (now : ℤ) (rand sine : ℕ → ℚ) : Reading :=
  let n := 7 * (6 * (days - d) + r)
  { timestamp := now - (d : ℤ) * 86400000 + (r : ℤ) * 4 * 3600000
    source := "trident"
    alk := jitter (alkBase d) 0.08 (rand n)
    ca := jitter (caBase d) 2 (rand (n + 1))
    mg := jitter 1350 5 (rand (n + 2))
    ph := jitter (8.32 + sine r * 0.12) 0.02 (rand (n + 3))
    temp := jitter 77.8 0.3 (rand (n + 4))
    no3 := jitter (no3Base d) 0.3 (rand (n + 5))
    po4 := jitter (po4Base d) 0.005 (rand (n + 6)) }

/-- The six Trident readings generated for day-counter `d`
(`for (let r = 0; r < 6; r++)`). -/
def dayReadings (days d : ℕ) (now : ℤ) (rand sine : ℕ → ℚ) : List Reading :=
  (List.range 6).map (fun r => mkReading days d r now rand sine)

/-- The simulator's `generateReadings(days)`: the outer loop runs the day-counter `d` from
`days` down to `0` inclusive (`(List.range (days+1)).reverse` is exactly
`[days, days-1, ..., 0]`), appending six readings per day. -/
def generateReadings (days : ℕ) (now : ℤ) (rand sine : ℕ → ℚ) : List Reading :=
  ((List.range (days + 1)).reverse).flatMap (fun d => dayReadings days d now rand sine)

lemma dayReadings_length (days d : ℕ) (now : ℤ) (rand sine : ℕ → ℚ) :
    (dayReadings days d now rand sine).length = 6 := by
  simp [dayReadings]

lemma generateReadings_length (days : ℕ) (now : ℤ) (rand sine : ℕ → ℚ) :
    (generateReadings days now rand sine).length = 6 * (days + 1) := by
  unfold generateReadings
  rw [List.length_flatMap]
  have h : (List.map (List.length ∘ fun d => dayReadings days d now rand sine)
      (List.range (days + 1)).reverse) = List.replicate (days + 1) 6 := by
    have : (List.length ∘ fun d => dayReadings days d now rand sine) =
        fun _ => 6 := by
      funext d
      simp [dayReadings]
    rw [this]
    rw [List.map_const']
    simp
  rw [h, List.sum_replicate]
  simp [Nat.mul_comm]

lemma mkReading_timestamp (days d r : ℕ) (now : ℤ) (rand sine : ℕ → ℚ) :
    (mkReading days d r now rand sine).timestamp =
      now - (d : ℤ) * 86400000 + (r : ℤ) * 4 * 3600000 := rfl

lemma generateReadings_sorted (days : ℕ) (now : ℤ) (rand sine : ℕ → ℚ) :
    (generateReadings days now rand sine).Pairwise
      (fun a b => a.timestamp < b.timestamp) := by
  unfold generateReadings
  rw [List.pairwise_flatMap]
  constructor
  · intro d _
    unfold dayReadings
    rw [List.pairwise_map]
    refine (List.pairwise_lt_range 6).imp ?_
    intro r₁ r₂ hlt
    rw [mkReading_timestamp, mkReading_timestamp]
    have : (r₁ : ℤ) < (r₂ : ℤ) := by exact_mod_cast hlt
    omega
  · rw [List.pairwise_reverse]
    refine (List.pairwise_lt_range (days + 1)).imp ?_
    intro d₁ d₂ hlt x hx y hy
    unfold dayReadings at hx hy
    rw [List.mem_map] at hx hy
    obtain ⟨r₂, hr₂, rfl⟩ := hx
    obtain ⟨r₁, hr₁, rfl⟩ := hy
    rw [List.mem_range] at hr₁ hr₂
    rw [mkReading_timestamp, mkReading_timestamp]
    have h1 : (d₁ : ℤ) < (d₂ : ℤ) := by exact_mod_cast hlt
    have h2 : (r₂ : ℤ) < 6 := by exact_mod_cast hr₂
    have h3 : (0 : ℤ) ≤ (r₁ : ℤ) := Int.natCast_nonneg r₁
    omega

/-- One entry of a parameter range table: three `[low, high]` bands plus a
display unit. -/
structure ParamRange where
  optimal : ℚ × ℚ
  watch : ℚ × ℚ
  critical : ℚ × ℚ
  unit : String
deriving DecidableEq

/-- The `PARAM_RANGES` table of the Gemini analysis module (ai-new). -/
def PARAM_RANGES : List (String × ParamRange) :=
  [("pH", ⟨(8.0, 8.3), (7.8, 8.5), (7.6, 8.7), ""⟩),
   ("temp", ⟨(76, 79), (75, 80), (73, 82), "°F"⟩),
   ("alk", ⟨(7.5, 9.0), (7.0, 10.0), (6.0, 12.0), "dKH"⟩),
   ("ca", ⟨(400, 450), (380, 480), (350, 520), "mg/L"⟩),
   ("mg", ⟨(1300, 1400), (1250, 1450), (1200, 1500), "mg/L"⟩),
   ("no3", ⟨(2, 10), (1, 15), (0, 25), "ppm"⟩),
   ("po4", ⟨(0.03, 0.1), (0.02, 0.15), (0, 0.3), "ppm"⟩),
   ("orp", ⟨(300, 400), (250, 420), (200, 450), "mV"⟩),
   ("salinity", ⟨(1.025, 1.026), (1.024, 1.027), (1.020, 1.030), "sg"⟩)]

/-- The `PARAM_RANGES` table of the library-backed analysis module (ai). -/
def PARAM_RANGES_LIB : List (String × ParamRange) :=
  [("pH", ⟨(8.0, 8.3), (7.8, 8.5), (7.6, 8.7), ""⟩),
   ("temp", ⟨(76, 79), (75, 80), (73, 82), "°F"⟩),
   ("alk", ⟨(7, 9), (6.5, 10), (5.5, 12), "dKH"⟩),
   ("ca", ⟨(400, 450), (380, 480), (350, 520), "ppm"⟩),
   ("mg", ⟨(1300, 1400), (1250, 1450), (1200, 1500), "ppm"⟩),
   ("no3", ⟨(2, 10), (1, 15), (0, 25), "ppm"⟩),
   ("po4", ⟨(0.03, 0.1), (0.02, 0.15), (0, 0.3), "ppm"⟩),
   ("orp", ⟨(300, 400), (250, 420), (200, 450), "mV"⟩),
   ("sal", ⟨(34, 36), (33, 37), (32, 38), "ppt"⟩)]

/-- The classifier `assessParameter(param, value)` restricted to own-property
lookup: find the parameter among the table's own entries (`unknown` when
absent), then test the three bands innermost first with inclusive bounds,
falling through to `danger`.  This matches the JavaScript function whenever
`param` is a registered parameter or a name with no `Object.prototype`
member; `assessParameterJs` below models the full JavaScript property access
including prototype-chain hits. -/
def assessParameter (table : List (String × ParamRange)) (param : String)
    (value : ℚ) : String :=
  match table.lookup param with
  | none => "unknown"
  | some r =>
    if r.optimal.1 ≤ value ∧ value ≤ r.optimal.2 then "optimal"
    else if r.watch.1 ≤ value ∧ value ≤ r.watch.2 then "watch"
    else if r.critical.1 ≤ value ∧ value ≤ r.critical.2 then "critical"
    else "danger"

/-- Result of the JavaScript property access `PARAM_RANGES[param]` on an
object literal: an own property (a registered range), a member inherited from
`Object.prototype` (a truthy function or object that is not a range), or
`undefined`. -/
inductive JsProperty where
  | own (r : ParamRange)
  | inherited
  | absent
deriving DecidableEq

/-- Property names every plain object literal inherits from
`Object.prototype` in Node: accessing them on the range table yields a truthy
value even though they are not registered parameters. -/
def objectPrototypeKeys : List String :=
  ["constructor", "hasOwnProperty", "isPrototypeOf", "propertyIsEnumerable",
   "toLocaleString", "toString", "valueOf", "__proto__", "__defineGetter__",
   "__defineSetter__", "__lookupGetter__", "__lookupSetter__"]

/-- JavaScript property access `table[param]`, prototype chain included. -/
def jsGet (table : List (String × ParamRange)) (param : String) : JsProperty :=
  match table.lookup param with
  | some r => .own r
  | none =>
    if objectPrototypeKeys.contains param then .inherited else .absent

/-- The classifier as the JavaScript engine actually executes it:
`const ranges = PARAM_RANGES[param]` consults the prototype chain, the guard
`if (!ranges) return 'unknown'` only catches the falsy `undefined`, and when
a truthy inherited member slips through, `value >= ranges.optimal[0]` throws
a `TypeError` because `ranges.optimal` is `undefined`.  On own properties it
agrees with `assessParameter`. -/
def assessParameterJs (table : List (String × ParamRange)) (param : String)
    (value : ℚ) : Except String String :=
  match jsGet table param with
  | .absent => .ok "unknown"
  | .inherited => .error "TypeError"
  | .own r =>
    .ok (if r.optimal.1 ≤ value ∧ value ≤ r.optimal.2 then "optimal"
      else if r.watch.1 ≤ value ∧ value ≤ r.watch.2 then "watch"
      else if r.critical.1 ≤ value ∧ value ≤ r.critical.2 then "critical"
      else "danger")

lemma assessParameterJs_agrees (table : List (String × ParamRange))
    (param : String) (value : ℚ) (r : ParamRange)
    (hr : table.lookup param = some r) :
    assessParameterJs table param value =
      Except.ok (assessParameter table param value) := by
  unfold assessParameterJs jsGet assessParameter
  rw [hr]

/-- The bands of a range table entry are nested:
optimal ⊆ watch ⊆ critical. -/
def nestedBands (r : ParamRange) : Prop :=
  r.watch.1 ≤ r.optimal.1 ∧ r.optimal.2 ≤ r.watch.2 ∧
  r.critical.1 ≤ r.watch.1 ∧ r.watch.2 ≤ r.critical.2

instance : DecidablePred nestedBands := fun r => by
  unfold nestedBands
  infer_instance

/-- Response of an Express handler: either a JSON payload or
`res.status(code).json({ error })`. -/
inductive AnalyzeResponse (α : Type) where
  | ok (analysis : α)
  | httpError (status : ℕ) (message : String)
deriving DecidableEq

/-- Control flow of `POST /api/tanks/:tankId/analyze` on the main server, with
the already-resolved Firestore data (`tank`, `recentReadings`, `recentEvents`,
`dosing`) and the external `analyzeTank` call passed in.  The handler returns
404 when the tank is missing, 400 when there are no recent readings, 500 when
`analyzeTank` reports failure, and the stored analysis otherwise. -/
def analyzeRoute {τ ρ ε δ α : Type} (tank : Option τ) (recentReadings : List ρ)
    (recentEvents : List ε) (dosing : δ)
    (analyzeTank : τ → ρ → List ρ → List ε → δ → Except String α) :
    AnalyzeResponse α :=
  match tank with
  | none => .httpError 404 "Tank not found"
  | some t =>
    match recentReadings with
    | [] => .httpError 400 "No readings available. Add readings first."
    | current :: _ =>
      match analyzeTank t current recentReadings recentEvents dosing with
      | .error e => .httpError 500 e
      | .ok a => .ok a

/-- A citation in the simulator's mock analysis. -/
structure Citation where
  source : String
  text : String
  relevance : String
deriving DecidableEq

/-- The analysis object returned by the simulator API's analyze route. -/
structure AnalysisResult where
  id : String
  type : String
  date : String
  diagnosis : String
  confidence : ℚ
  severity : String
  recommendations : List String
  citations : List Citation
deriving DecidableEq

/-- The route `POST /tanks/:tankId/analyze` in the Electron simulator API: a fixed mock
analysis, independent of any readings or events (only the generated `id` and
`date` strings vary with the clock). -/
def simulatorAnalyze (id date : String) : AnalysisResult :=
  { id := id
    type := "user-requested"
    date := date
    diagnosis := "Alkalinity crash likely caused by nitrification from urea/ammonium dosing consuming alk. Calcium elevated due to reduced All-For-Reef dosing."
    confidence := 95
    severity := "high"
    recommendations :=
      ["Stop ammonium dosing immediately",
       "Increase All-For-Reef to 180-200 mL/day to restore alk",
       "Monitor alk every 12 hours for next 48 hours",
       "Once alk stabilizes above 7.5, resume normal dosing schedule"]
    citations :=
      [{ source := "Randy Holmes-Farley"
         text := "Nitrification consumes alkalinity at a rate of ~7 dKH per 1 ppm ammonia converted"
         relevance := "Explains the mechanism of alkalinity consumption from urea dosing" }] }

/-- One reading in the simulator API's in-memory store. -/
structure SimReading where
  id : String
  source : String
  alk : ℚ
  ca : ℚ
  mg : ℚ
  ph : ℚ
  temp : ℚ
  orp : ℚ
  timestamp : String
deriving DecidableEq

/-- One event in the simulator API's in-memory store. -/
structure SimEvent where
  id : String
  type : String
  title : String
  details : String
  date : String
  source : String
deriving DecidableEq

/-- The module-level mutable `simulatorData` shared by all simulator API
routes. -/
structure SimulatorData where
  readings : List SimReading
  events : List SimEvent
deriving DecidableEq

/-- The route `POST /tanks/:tankId/readings` in the simulator API: generate a reading
(passed in here, since it samples the RNG and the clock), `unshift` it onto
the shared `simulatorData.readings`, and respond with it. -/
def postReading (s : SimulatorData) (reading : SimReading) :
    SimulatorData × SimReading :=
  ({ s with readings := reading :: s.readings }, reading)

/-- A concrete reading of the shape `simulator.generateReading()` produces. -/
def sampleSimReading : SimReading :=
  { id := "sim-reading-0", source := "trident", alk := 8.1, ca := 438,
    mg := 1350, ph := 8.32, temp := 77.8, orp := 325, timestamp := "t0" }

/-- C1 (counterexample): the claim "the synthetic generator returns exactly
windowDays readings" is false: for `windowDays = 1` the generator returns 12
readings (six per day, for day-counters 1 and 0), not 1. -/
theorem C1_counterexample :
    (generateReadings 1 0 (fun _ => 0.5) (fun _ => 0)).length ≠ 1 := by
  rw [generateReadings_length]
  decide

/-- C1 (amended): for every windowDays and every clock/RNG input, the
generator returns exactly `6 * (windowDays + 1)` readings — six per day for
each day-counter from windowDays down to 0 inclusive — and the returned
sequence is in strictly increasing timestamp order (oldest first). -/
theorem C1_generator_count_and_order (days : ℕ) (now : ℤ) (rand sine : ℕ → ℚ) :
    (generateReadings days now rand sine).length = 6 * (days + 1) ∧
    (generateReadings days now rand sine).Pairwise
      (fun a b => a.timestamp < b.timestamp) :=
  ⟨generateReadings_length days now rand sine,
   generateReadings_sorted days now rand sine⟩

/-- C4 (counterexample): the generator's output is not a function of
(window length, phase table, RNG seed) alone: two invocations with identical
window length and identical RNG stream but different clock readings
(`Date.now()`) produce different sequences, because the timestamps embed the
invocation time. -/
theorem C4_counterexample :
    generateReadings 0 0 (fun _ => 0.5) (fun _ => 0) ≠
      generateReadings 0 86400000 (fun _ => 0.5) (fun _ => 0) := by
  intro h
  have h0 := congrArg (fun l => l.head?.map Reading.timestamp) h
  simp [generateReadings, dayReadings, List.range_succ, mkReading] at h0

/-- C4 (amended): the generator is deterministic once the clock reading is
fixed along with the window length and the RNG/sine streams: two invocations
with identical (windowDays, now, rand, sine) produce identical sequences. -/
theorem C4_deterministic (days days' : ℕ) (now now' : ℤ)
    (rand rand' sine sine' : ℕ → ℚ) (hd : days = days') (hn : now = now')
    (hr : rand = rand') (hs : sine = sine') :
    generateReadings days now rand sine =
      generateReadings days' now' rand' sine' := by
  subst hd hn hr hs
  rfl

/-- C4 (witness): the amended determinism theorem applied at a concrete
input. -/
theorem C4_witness :
    generateReadings 3 5 (fun _ => 0.25) (fun _ => 0) =
      generateReadings 3 5 (fun _ => 0.25) (fun _ => 0) :=
  C4_deterministic 3 3 5 5 (fun _ => 0.25) (fun _ => 0.25) (fun _ => 0)
    (fun _ => 0) rfl rfl rfl rfl

/-- C5 (counterexample): the claim "for windowDays = 0 it returns the empty
reading sequence" is false: with `days = 0` the loop body still runs for
day-counter 0 and produces six readings. -/
theorem C5_counterexample :
    generateReadings 0 0 (fun _ => 0.5) (fun _ => 0) ≠ [] := by
  intro h
  have hl := congrArg List.length h
  rw [generateReadings_length] at hl
  simp at hl

/-- C5 (amended): the generator is a total function, succeeding for every
windowDays ≥ 0; for windowDays = 0 it returns six readings (one final day),
not the empty sequence. -/
theorem C5_zero_window (now : ℤ) (rand sine : ℕ → ℚ) :
    (generateReadings 0 now rand sine).length = 6 := by
  rw [generateReadings_length]

/-- C2 (counterexample): the claim "analyze on an empty trailing window
returns a Diagnosis containing an insufficient-data marker, never an error"
is false: with an existing tank and zero recent readings the analyze handler
returns the HTTP 400 error response, not a Diagnosis. -/
theorem C2_counterexample :
    analyzeRoute (some ()) ([] : List Unit) ([] : List Unit) ()
      (fun _ _ _ _ _ => (Except.ok () : Except String Unit)) =
      AnalyzeResponse.httpError 400 "No readings available. Add readings first." :=
  rfl

/-- C2 (amended): for every tank, event list, dosing configuration and
external analysis function, the analyze handler on an empty trailing reading
window returns the HTTP 400 error "No readings available. Add readings
first." rather than a Diagnosis. -/
theorem C2_empty_trailing {τ ρ ε δ α : Type} (t : τ) (events : List ε)
    (dosing : δ) (fn : τ → ρ → List ρ → List ε → δ → Except String α) :
    analyzeRoute (some t) ([] : List ρ) events dosing fn =
      AnalyzeResponse.httpError 400 "No readings available. Add readings first." :=
  rfl

/-- C3: for any range table, any registered parameter and any value, the
classifier returns "optimal" for a value inside the optimal band (boundaries
included, since the innermost band is tested first with inclusive
comparisons) and "danger" for a value outside all three bands. -/
theorem C3_classify_optimal_danger (table : List (String × ParamRange))
    (param : String) (value : ℚ) (r : ParamRange)
    (hr : table.lookup param = some r) :
    (r.optimal.1 ≤ value ∧ value ≤ r.optimal.2 →
      assessParameter table param value = "optimal") ∧
    (¬(r.optimal.1 ≤ value ∧ value ≤ r.optimal.2) →
     ¬(r.watch.1 ≤ value ∧ value ≤ r.watch.2) →
     ¬(r.critical.1 ≤ value ∧ value ≤ r.critical.2) →
      assessParameter table param value = "danger") := by
  unfold assessParameter
  rw [hr]
  constructor
  · intro h
    simp [h]
  · intro h1 h2 h3
    simp [h1, h2, h3]

/-- C3 (witness): alkalinity at exactly the optimal/watch boundary 9.0 dKH is
"optimal", and 13 dKH (outside all bands) is "danger". -/
theorem C3_witness :
    PARAM_RANGES.lookup "alk" =
      some ⟨(7.5, 9.0), (7.0, 10.0), (6.0, 12.0), "dKH"⟩ ∧
    assessParameter PARAM_RANGES "alk" 9 = "optimal" ∧
    assessParameter PARAM_RANGES "alk" 13 = "danger" :=
  ⟨by simp [PARAM_RANGES, List.lookup],
   (C3_classify_optimal_danger PARAM_RANGES "alk" 9
      ⟨(7.5, 9.0), (7.0, 10.0), (6.0, 12.0), "dKH"⟩
      (by simp [PARAM_RANGES, List.lookup])).1 (by norm_num),
   (C3_classify_optimal_danger PARAM_RANGES "alk" 13
      ⟨(7.5, 9.0), (7.0, 10.0), (6.0, 12.0), "dKH"⟩
      (by simp [PARAM_RANGES, List.lookup])).2
     (by norm_num) (by norm_num) (by norm_num)⟩

/-- C6 (counterexample): the claim "each finding's numeric confidence lies in
[0,1]" is false: the Diagnosis returned by the simulator analyze route has
confidence 95. -/
theorem C6_counterexample :
    ¬((simulatorAnalyze "sim-analysis-0" "2026-01-01").confidence ≤ 1) := by
  decide

/-- C6 (amended): the analysis confidence is on a 0–100 percent scale: the
Diagnosis produced by the simulator analyze route has confidence within
[0, 100] (namely 95). -/
theorem C6_confidence_percent (id date : String) :
    0 ≤ (simulatorAnalyze id date).confidence ∧
      (simulatorAnalyze id date).confidence ≤ 100 := by
  constructor <;> norm_num [simulatorAnalyze]

/-- C7: in both configured range tables, every registered parameter has
nested bands: optimal ⊆ watch ⊆ critical. -/
theorem C7_bands_nested :
    (∀ e ∈ PARAM_RANGES, nestedBands e.2) ∧
    (∀ e ∈ PARAM_RANGES_LIB, nestedBands e.2) := by
  norm_num [PARAM_RANGES, PARAM_RANGES_LIB, nestedBands, List.forall_mem_cons]

/-- C7 (witness): the nesting theorem applied to the alkalinity entry of the
first range table. -/
theorem C7_witness :
    ("alk", (⟨(7.5, 9.0), (7.0, 10.0), (6.0, 12.0), "dKH"⟩ : ParamRange)) ∈
      PARAM_RANGES ∧
    nestedBands ⟨(7.5, 9.0), (7.0, 10.0), (6.0, 12.0), "dKH"⟩ :=
  ⟨by simp [PARAM_RANGES],
   C7_bands_nested.1 ("alk", ⟨(7.5, 9.0), (7.0, 10.0), (6.0, 12.0), "dKH"⟩)
     (by simp [PARAM_RANGES])⟩

/-- C8 (code bug): the guard `if (!ranges) return 'unknown'` is meant to make
every unregistered parameter classify as "unknown", but the property access
consults the prototype chain: for the unregistered name "constructor" the
inherited `Object.prototype` member is truthy, the guard is bypassed, and the
classifier throws a TypeError instead of returning "unknown"; a name with no
prototype member, such as "foo", still returns "unknown" as intended. -/
theorem C8_prototype_leak :
    assessParameterJs PARAM_RANGES "constructor" 8 = Except.error "TypeError" ∧
    assessParameterJs PARAM_RANGES "foo" 8 = Except.ok "unknown" :=
  ⟨rfl, rfl⟩

/-- C9 (counterexample): the claim "no call reads or writes shared mutable
state, so all state observable by a later invocation is identical before and
after any earlier invocation" is false: posting a reading through the
simulator API changes the shared `simulatorData` (it prepends the new reading
to `simulatorData.readings`), which later invocations observe. -/
theorem C9_counterexample :
    (postReading ⟨[], []⟩ sampleSimReading).1 ≠ (⟨[], []⟩ : SimulatorData) := by
  decide

/-- C9 (amended): the simulator API is not stateless across invocations: the
reading-post route prepends the generated reading to the shared
`simulatorData.readings`, so the state observable by a later invocation
always differs from the state before the call. -/
theorem C9_postReading_mutates (s : SimulatorData) (reading : SimReading) :
    (postReading s reading).1.readings = reading :: s.readings ∧
    (postReading s reading).1 ≠ s := by
  refine ⟨rfl, ?_⟩
  intro h
  have hl := congrArg (fun st => st.readings.length) h
  simp [postReading] at hl

/-- C10: provided the RNG sample lies in [0,1] (the contract of
`Math.random()`) and the amplitude is nonnegative, `jitter(value, amount)`
returns a value within `[value - amount - 0.005, value + amount + 0.005]`:
the additive noise is bounded by the amplitude and rounding to two decimal
places moves the result by at most 1/200. -/
theorem C10_jitter_bounded (value amount u : ℚ) (ha : 0 ≤ amount)
    (hu0 : 0 ≤ u) (hu1 : u ≤ 1) :
    value - amount - 0.005 ≤ jitter value amount u ∧
      jitter value amount u ≤ value + amount + 0.005 := by
  have hnoise : |(u - 0.5) * 2 * amount| ≤ amount := by
    have h1 : |u - 0.5| ≤ 0.5 := by
      rw [abs_le]
      constructor <;> linarith
    calc |(u - 0.5) * 2 * amount| = |u - 0.5| * 2 * amount := by
          rw [abs_mul, abs_mul]
          rw [abs_of_nonneg ha]
          norm_num
      _ ≤ 0.5 * 2 * amount := by
          have h2 : |u - 0.5| * 2 ≤ 0.5 * 2 := by linarith
          exact mul_le_mul_of_nonneg_right h2 ha
      _ = amount := by ring
  set x : ℚ := value + (u - 0.5) * 2 * amount with hx
  have hround : |jitter value amount u - x| ≤ 1 / 200 := by
    have h := abs_sub_round (x * 100)
    have heq : jitter value amount u - x =
        (((round (x * 100) : ℤ) : ℚ) - x * 100) / 100 := by
      show round2 x - x = _
      unfold round2
      ring
    rw [heq, abs_div]
    have h100 : |(100 : ℚ)| = 100 := by norm_num
    rw [h100, div_le_iff₀ (by norm_num : (0 : ℚ) < 100)]
    calc |((round (x * 100) : ℤ) : ℚ) - x * 100| = |x * 100 - ((round (x * 100) : ℤ) : ℚ)| := abs_sub_comm _ _
      _ ≤ 1 / 2 := h
      _ ≤ 1 / 200 * 100 := by norm_num
  rw [abs_le] at hnoise hround
  obtain ⟨hn1, hn2⟩ := hnoise
  obtain ⟨hr1, hr2⟩ := hround
  constructor
  · have : (0.005 : ℚ) = 1 / 200 := by norm_num
    rw [this]
    have hxl : value - amount ≤ x := by
      rw [hx]
      linarith
    linarith
  · have : (0.005 : ℚ) = 1 / 200 := by norm_num
    rw [this]
    have hxu : x ≤ value + amount := by
      rw [hx]
      linarith
    linarith

/-- C10 (witness): the jitter bound applied at value 8.2, amplitude 0.08, RNG
sample 0.5 (where the noise vanishes and the result is 8.2 itself). -/
theorem C10_witness :
    (0 : ℚ) ≤ 0.08 ∧ (0 : ℚ) ≤ 0.5 ∧ (0.5 : ℚ) ≤ 1 ∧
    ((8.2 : ℚ) - 0.08 - 0.005 ≤ jitter 8.2 0.08 0.5 ∧
      jitter 8.2 0.08 0.5 ≤ 8.2 + 0.08 + 0.005) :=
  ⟨by norm_num, by norm_num, by norm_num,
   C10_jitter_bounded 8.2 0.08 0.5 (by norm_num) (by norm_num) (by norm_num)⟩

end ReefMind
